import Mathlib

/-!
Verification of the Dask serialization layer of cudf_polars
(`python/cudf_polars/cudf_polars/experimental/dask_serialize.py`).

The module registers serialize/deserialize hooks for `Column` and
`DataFrame` on two transport paths:

* the CUDA path (`cuda_serialize` / `cuda_deserialize`), where buffers
  cross the wire as device-memory handles, and
* the host path (`dask_serialize` / `dask_deserialize`), where the device
  data buffer is staged through host memory.

The embedding models frames, the CUDA array interface descriptor, the
classifier `frames_to_gpumemoryview`, and the four hook bodies.  Hooks are
instrumented with an explicit log of raised errors (mirroring
`distributed.utils.log_errors`) and a list of the memory copies they
perform, so that "the error branch performs no copy" and "errors are
logged and re-raised" are provable statements rather than side effects.
-/

namespace DaskSerialize

/-- The `__cuda_array_interface__` descriptor of a device buffer: data
pointer, shape, strides (unset is `None` in Python, `none` here) and the
element type string. -/
structure CAI where
  ptr : Nat
  shape : List Nat
  strides : Option (List Nat)
  typestr : String
deriving DecidableEq, Repr

/-- Modelled from the spec: the native device-buffer handle type
`plc.gpumemoryview` is not under `src/`; per the spec it is a non-owning
handle exposing the device-memory-interface descriptor of a device
region.  The model carries the descriptor together with the byte content
of the region the descriptor designates, since device memory itself is
external. -/
structure Gpumemoryview where
  cai : CAI
  bytes : List Nat
deriving DecidableEq, Repr

/-- A transport frame: a native device-buffer handle, a foreign object
exposing `__cuda_array_interface__` (for example an `rmm.DeviceBuffer`
delivered by UCX), or a plain host byte buffer without that interface. -/
inductive Frame where
  | gpu (g : Gpumemoryview)
  | foreign (cai : CAI) (bytes : List Nat)
  | host (bytes : List Nat)
deriving DecidableEq, Repr

/-- `hasattr(f, "__cuda_array_interface__")`: holds for the native handle
and for foreign device objects, not for host buffers. -/
def Frame.hasCudaArrayInterface : Frame → Bool
  | .gpu _ => true
  | .foreign _ _ => true
  | .host _ => false

/-- The byte content of the memory a frame refers to (device bytes for
device frames, the host bytes otherwise). -/
def Frame.underlyingBytes : Frame → List Nat
  | .gpu g => g.bytes
  | .foreign _ bs => bs
  | .host bs => bs

/-- Modelled from the spec: the `plc.gpumemoryview` constructor is not
under `src/`; per the spec it wraps any object exposing the
device-memory-interface capability as a native device-buffer handle of
the same memory, and is undefined on objects without that capability. -/
def Frame.asGpumemoryview : Frame → Option Gpumemoryview
  | .gpu g => some g
  | .foreign c bs => some ⟨c, bs⟩
  | .host _ => none

/-- `frames_to_gpumemoryview`: convert each element of `frames` exposing
the CUDA array interface to `plc.gpumemoryview`; pass every other
element through unchanged. -/
def frames_to_gpumemoryview (frames : List Frame) : List Frame :=
  frames.map fun f =>
    match f.asGpumemoryview with
    | some g => Frame.gpu g
    | none => f

/-- Modelled from the spec: the Column/DataFrame object layer is not
under `src/`.  Per the spec an object exposes `serialize` producing an
opaque header plus exactly one host-representable metadata buffer and
one contiguous device data buffer, with `deserialize` a left inverse
under value equality of content.  The model carries exactly that
content; `Column` and `DataFrame` have identical hook bodies, so one
type models both variants. -/
structure Obj where
  metaBytes : List Nat
  data : Gpumemoryview
  header : Nat
deriving DecidableEq, Repr

/-- Modelled from the spec: `x.serialize()` returns
`(header, (metadata_buffer, data_buffer))`, the metadata buffer
host-representable and the data buffer a device-buffer handle. -/
def Obj.serialize (x : Obj) : Nat × (Frame × Gpumemoryview) :=
  (x.header, (Frame.host x.metaBytes, x.data))

/-- Modelled from the spec: `deserialize(header, (metadata_buffer,
data_buffer))` reconstructs the object from the metadata buffer and the
device data buffer; it rejects frame pairs of the wrong kind. -/
def Obj.deserialize (header : Nat) : Frame × Frame → Option Obj
  | (Frame.host mb, Frame.gpu g) => some ⟨mb, g, header⟩
  | _ => none

/-- Value equality of object content: same opaque header, same metadata
bytes, same device data bytes — buffer identity (device pointers,
descriptor incidentals) is not compared. -/
def Obj.contentEq (x y : Obj) : Prop :=
  x.header = y.header ∧ x.metaBytes = y.metaBytes ∧ x.data.bytes = y.data.bytes

instance (x y : Obj) : Decidable (x.contentEq y) := by
  unfold Obj.contentEq; infer_instance

/-- A memory copy performed by a hook, with the bytes moved. -/
inductive CopyEvent where
  | deviceToHost (bytes : List Nat)
  | hostToDevice (bytes : List Nat)
deriving DecidableEq, Repr

/-- Errors raised inside the hooks: assertion failures on preconditions,
failures of the copy primitives, and rejections by the object layer's
own deserialize. -/
inductive SerErr where
  | preconditionViolation (msg : String)
  | runtimeCopyFailure
  | reconstructionFailure
deriving DecidableEq, Repr

/-- The observable outcome of one hook call: the returned value or the
propagated error, the errors logged by `log_errors`, and the memory
copies performed. -/
structure HookOut (A : Type) where
  result : Except SerErr A
  logged : List SerErr
  copies : List CopyEvent
deriving Repr

/-- `distributed.utils.log_errors`: run the body; on an exception, log
it and re-raise it unchanged. -/
def log_errors {A : Type} (body : Except SerErr A × List CopyEvent) : HookOut A :=
  match body with
  | (Except.ok a, cs) => ⟨Except.ok a, [], cs⟩
  | (Except.error e, cs) => ⟨Except.error e, [e], cs⟩

/-- Outcome of a call into the object layer's deserialize: a rejection
propagates as an exception. -/
def objResult : Option Obj → Except SerErr Obj
  | some x => Except.ok x
  | none => Except.error SerErr.reconstructionFailure

/-- The `cuda_serialize` hook: `header, frames = x.serialize()`;
return the header and the frames as a list, untouched. -/
def cuda_serialize (x : Obj) : HookOut (Nat × List Frame) :=
  let (header, (f0, g1)) := x.serialize
  log_errors (Except.ok (header, [f0, Frame.gpu g1]), [])

/-- The `cuda_deserialize` hook body, parametrized by the object layer's
deserialize function `d` (the registered hooks pass
`DataFrame.deserialize` or `Column.deserialize`): classify the frames,
assert exactly two, and call `d` on the pair. -/
def cuda_deserialize_with (d : Nat → Frame × Frame → Option Obj)
    (header : Nat) (frames : List Frame) : HookOut Obj :=
  match frames_to_gpumemoryview frames with
  | [f0, f1] => log_errors (objResult (d header (f0, f1)), [])
  | _ => log_errors (Except.error (SerErr.preconditionViolation "len(frames) == 2"), [])

/-- The `cuda_deserialize` hook with the object layer's deserialize. -/
def cuda_deserialize (header : Nat) (frames : List Frame) : HookOut Obj :=
  cuda_deserialize_with Obj.deserialize header frames

/-- `rmm.DeviceBuffer(ptr=g.ptr, size=nbytes).copy_to_host()`: one
device-to-host copy of `nbytes` bytes from the region the handle
designates. -/
def copy_to_host (g : Gpumemoryview) (nbytes : Nat) : List Nat :=
  g.bytes.take nbytes

/-- The `dask_serialize` hook: obtain the header and buffer pair from
the object, assert that the device data buffer is a flat contiguous
byte array (rank-1 shape, strides unset or `(1,)`, typestr `|u1`), then
copy its `shape[0]` bytes to host memory.  The copy sits on the success
branch only. -/
def dask_serialize (x : Obj) : HookOut (Nat × List Frame) :=
  let (header, (metadata, gpudata)) := x.serialize
  let cai := gpudata.cai
  if cai.shape.length = 1 then
    if cai.strides = none ∨ cai.strides = some [1] then
      if cai.typestr = "|u1" then
        let nbytes := cai.shape.headD 0
        let gpudata_on_host := copy_to_host gpudata nbytes
        log_errors (Except.ok (header, [metadata, Frame.host gpudata_on_host]),
          [CopyEvent.deviceToHost gpudata_on_host])
      else log_errors (Except.error (SerErr.preconditionViolation "typestr must be |u1"), [])
    else log_errors (Except.error (SerErr.preconditionViolation "strides must be None or (1,)"), [])
  else log_errors (Except.error (SerErr.preconditionViolation "shape must be rank 1"), [])

/-- `rmm.DeviceBuffer.to_device(bs)`: allocate a new device buffer (at
the fresh address `p` handed out by the allocator) holding the host
bytes `bs`; its descriptor is the flat byte layout. -/
def DeviceBuffer.to_device (bs : List Nat) (p : Nat) : Gpumemoryview :=
  ⟨⟨p, [bs.length], none, "|u1"⟩, bs⟩

/-- The `dask_deserialize` hook body, parametrized by the object layer's
deserialize function `d`: assert exactly two frames, pass the first
through, copy the second (host bytes) to a newly allocated device
buffer wrapped as a native handle, then call `d`.  `freshPtr` is the
address the allocator returns for the new buffer.  A second frame that
is not host bytes makes the copy primitive itself fail. -/
def dask_deserialize_with (d : Nat → Frame × Frame → Option Obj)
    (header : Nat) (frames : List Frame) (freshPtr : Nat) : HookOut Obj :=
  match frames with
  | [f0, Frame.host bs] =>
      let buf := DeviceBuffer.to_device bs freshPtr
      log_errors (objResult (d header (f0, Frame.gpu buf)), [CopyEvent.hostToDevice bs])
  | [_, _] => log_errors (Except.error SerErr.runtimeCopyFailure, [])
  | _ => log_errors (Except.error (SerErr.preconditionViolation "len(frames) == 2"), [])

/-- The `dask_deserialize` hook with the object layer's deserialize. -/
def dask_deserialize (header : Nat) (frames : List Frame) (freshPtr : Nat) : HookOut Obj :=
  dask_deserialize_with Obj.deserialize header frames freshPtr

/-- The host path's contiguity precondition together with descriptor
consistency: the descriptor declares exactly the buffer's byte length
as its rank-1 shape, unit or unset strides, and the raw byte typestr.
Every data buffer the object layer constructs satisfies this. -/
def Gpumemoryview.WellFormed (g : Gpumemoryview) : Prop :=
  g.cai.shape = [g.bytes.length] ∧
    (g.cai.strides = none ∨ g.cai.strides = some [1]) ∧
    g.cai.typestr = "|u1"

instance (g : Gpumemoryview) : Decidable g.WellFormed := by
  unfold Gpumemoryview.WellFormed; infer_instance

/-- A hook outcome logs faithfully when every propagated error appears in
the log and a successful return logs nothing (no error is swallowed into
a value). -/
def LogsFaithfully {A : Type} (h : HookOut A) : Prop :=
  (∀ e, h.result = Except.error e → e ∈ h.logged) ∧
  (∀ a : A, h.result = Except.ok a → h.logged = [])

/-- A sample well-formed object: one metadata byte, two data bytes, a
consistent flat-byte descriptor. -/
def sampleObj : Obj :=
  ⟨[1], ⟨⟨0, [2], none, "|u1"⟩, [7, 9]⟩, 5⟩

theorem log_errors_faithful {A : Type} (body : Except SerErr A × List CopyEvent) :
    LogsFaithfully (log_errors body) := by
  rcases body with ⟨r, cs⟩
  cases r with
  | error e' =>
      refine ⟨fun e he => ?_, fun a ha => ?_⟩
      · simp only [log_errors] at he ⊢
        cases he
        exact List.mem_singleton.mpr rfl
      · exact Except.noConfusion ha
  | ok a' =>
      refine ⟨fun e he => ?_, fun a ha => ?_⟩
      · exact Except.noConfusion he
      · rfl

theorem dask_serialize_of_wellFormed (x : Obj) (h : x.data.WellFormed) :
    dask_serialize x = ⟨Except.ok (x.header,
        [Frame.host x.metaBytes, Frame.host x.data.bytes]), [],
      [CopyEvent.deviceToHost x.data.bytes]⟩ := by
  obtain ⟨hsh, hst, hty⟩ := h
  have h1 : x.data.cai.shape.length = 1 := by rw [hsh]; rfl
  have hn : x.data.cai.shape.headD 0 = x.data.bytes.length := by rw [hsh]; rfl
  simp only [dask_serialize, Obj.serialize]
  rw [if_pos h1, if_pos hst, if_pos hty]
  simp only [copy_to_host, hn, List.take_length, log_errors]

/-- Claim C4: the buffer classifier is idempotent on native handles — a
frame that is already a `plc.gpumemoryview` is returned unchanged (no
double-wrapping), classification is idempotent on whole frame lists,
and a foreign device-memory-interface frame is classified to exactly the
native wrap of the same descriptor and memory. -/
theorem claim_C4 :
    (∀ g : Gpumemoryview, frames_to_gpumemoryview [Frame.gpu g] = [Frame.gpu g]) ∧
    (∀ fs : List Frame,
        frames_to_gpumemoryview (frames_to_gpumemoryview fs) = frames_to_gpumemoryview fs) ∧
    (∀ (c : CAI) (bs : List Nat),
        ∃ g : Gpumemoryview, (Frame.foreign c bs).asGpumemoryview = some g ∧
          frames_to_gpumemoryview [Frame.foreign c bs] = [Frame.gpu g] ∧
          g.cai = c ∧ g.bytes = bs) := by
  refine ⟨fun g => rfl, fun fs => ?_, fun c bs => ⟨⟨c, bs⟩, rfl, rfl, rfl, rfl⟩⟩
  unfold frames_to_gpumemoryview
  rw [List.map_map]
  congr 1
  funext f
  cases f <;> rfl

/-- Claim C5: the classifier wraps each frame exposing the CUDA array
interface as a native device-buffer handle over the same underlying
memory, and returns every other frame unchanged; no byte of underlying
memory is copied (the underlying bytes of the output frame are those of
the input frame). -/
theorem claim_C5 (fs : List Frame) (i : Nat) (hi : i < fs.length) :
    ∃ f o, fs[i]? = some f ∧ (frames_to_gpumemoryview fs)[i]? = some o ∧
      (f.hasCudaArrayInterface = true →
        ∃ g, f.asGpumemoryview = some g ∧ o = Frame.gpu g ∧
          o.underlyingBytes = f.underlyingBytes) ∧
      (f.hasCudaArrayInterface = false → o = f) := by
  obtain ⟨f, hf⟩ : ∃ f, fs[i]? = some f := ⟨fs[i], List.getElem?_eq_getElem hi⟩
  refine ⟨f, match f.asGpumemoryview with | some g => Frame.gpu g | none => f,
    hf, ?_, ?_, ?_⟩
  · rw [frames_to_gpumemoryview, List.getElem?_map, hf]
    rfl
  · intro hcai
    cases f with
    | gpu g => exact ⟨g, rfl, rfl, rfl⟩
    | foreign c bs => exact ⟨⟨c, bs⟩, rfl, rfl, rfl⟩
    | host bs => exact Bool.noConfusion hcai
  · intro hcai
    cases f with
    | gpu g => exact Bool.noConfusion hcai
    | foreign c bs => exact Bool.noConfusion hcai
    | host bs => rfl

/-- Claim C5 witness: the classifier at index 0 of a concrete two-frame
list containing a foreign device frame. -/
theorem claim_C5_witness :
    ∃ f o, ([Frame.foreign ⟨4, [1], none, "|u1"⟩ [7], Frame.host [3]] : List Frame)[0]? = some f ∧
      (frames_to_gpumemoryview
        [Frame.foreign ⟨4, [1], none, "|u1"⟩ [7], Frame.host [3]])[0]? = some o ∧
      (f.hasCudaArrayInterface = true →
        ∃ g, f.asGpumemoryview = some g ∧ o = Frame.gpu g ∧
          o.underlyingBytes = f.underlyingBytes) ∧
      (f.hasCudaArrayInterface = false → o = f) :=
  claim_C5 [Frame.foreign ⟨4, [1], none, "|u1"⟩ [7], Frame.host [3]] 0 (by decide)

/-- Claim C10: the classifier returns a list of the same length, and the
element at each index of the output is either identical to the element
at the same index of the input, or its native wrap — nothing is
dropped, added or reordered. -/
theorem claim_C10 (fs : List Frame) :
    (frames_to_gpumemoryview fs).length = fs.length ∧
    ∀ i : Nat, i < fs.length →
      ∃ f, fs[i]? = some f ∧
        ((frames_to_gpumemoryview fs)[i]? = some f ∨
          ∃ g, f.asGpumemoryview = some g ∧
            (frames_to_gpumemoryview fs)[i]? = some (Frame.gpu g)) := by
  refine ⟨List.length_map fs _, fun i hi => ?_⟩
  obtain ⟨f, hf⟩ : ∃ f, fs[i]? = some f := ⟨fs[i], List.getElem?_eq_getElem hi⟩
  have ho : (frames_to_gpumemoryview fs)[i]? =
      some (match f.asGpumemoryview with | some g => Frame.gpu g | none => f) := by
    rw [frames_to_gpumemoryview, List.getElem?_map, hf]
    rfl
  refine ⟨f, hf, ?_⟩
  cases f with
  | gpu g => exact Or.inr ⟨g, rfl, ho⟩
  | foreign c bs => exact Or.inr ⟨⟨c, bs⟩, rfl, ho⟩
  | host bs => exact Or.inl ho

/-- Claim C10 witness: length preservation and per-index derivation on a
concrete two-frame list. -/
theorem claim_C10_witness :
    (frames_to_gpumemoryview [Frame.host [2], Frame.gpu ⟨⟨1, [0], none, "|u1"⟩, []⟩]).length =
      ([Frame.host [2], Frame.gpu ⟨⟨1, [0], none, "|u1"⟩, []⟩] : List Frame).length ∧
    ∀ i : Nat, i < ([Frame.host [2], Frame.gpu ⟨⟨1, [0], none, "|u1"⟩, []⟩] : List Frame).length →
      ∃ f, ([Frame.host [2], Frame.gpu ⟨⟨1, [0], none, "|u1"⟩, []⟩] : List Frame)[i]? = some f ∧
        ((frames_to_gpumemoryview
            [Frame.host [2], Frame.gpu ⟨⟨1, [0], none, "|u1"⟩, []⟩])[i]? = some f ∨
          ∃ g, f.asGpumemoryview = some g ∧
            (frames_to_gpumemoryview
              [Frame.host [2], Frame.gpu ⟨⟨1, [0], none, "|u1"⟩, []⟩])[i]? =
              some (Frame.gpu g)) :=
  claim_C10 [Frame.host [2], Frame.gpu ⟨⟨1, [0], none, "|u1"⟩, []⟩]

/-- Claim C6: the device-path serialize hook returns the header produced
by the object's own serialize together with both of its buffers as a
list, in order, with no copy performed, no modification, and nothing
logged. -/
theorem claim_C6 (x : Obj) :
    (cuda_serialize x).result =
      Except.ok (x.serialize.1, [x.serialize.2.1, Frame.gpu x.serialize.2.2]) ∧
    (cuda_serialize x).copies = [] ∧ (cuda_serialize x).logged = [] :=
  ⟨rfl, rfl, rfl⟩

/-- Claim C7: on a two-element frame list whose second element is host
bytes, the host-path deserialize hook passes the first frame through
unchanged, performs one host-to-device copy of the second frame's bytes
into a newly allocated device buffer (at the allocator's fresh address),
wraps it as a native handle, and only then calls the object layer's
deserialize on exactly that pair. -/
theorem claim_C7 (d : Nat → Frame × Frame → Option Obj)
    (header freshPtr : Nat) (f0 : Frame) (bs : List Nat) :
    dask_deserialize_with d header [f0, Frame.host bs] freshPtr =
      log_errors (objResult (d header
        (f0, Frame.gpu (DeviceBuffer.to_device bs freshPtr))),
        [CopyEvent.hostToDevice bs]) ∧
    (DeviceBuffer.to_device bs freshPtr).bytes = bs ∧
    (DeviceBuffer.to_device bs freshPtr).cai.ptr = freshPtr ∧
    (dask_deserialize_with d header [f0, Frame.host bs] freshPtr).copies =
      [CopyEvent.hostToDevice bs] := by
  refine ⟨rfl, rfl, rfl, ?_⟩
  show (log_errors (objResult (d header
    (f0, Frame.gpu (DeviceBuffer.to_device bs freshPtr))),
    [CopyEvent.hostToDevice bs])).copies = [CopyEvent.hostToDevice bs]
  cases d header (f0, Frame.gpu (DeviceBuffer.to_device bs freshPtr)) <;> rfl

/-- Claim C1: serialize/deserialize round trips on both paths.  For any
object the object layer can construct (its data buffer is well formed,
and the spec-modelled object layer is a left inverse by construction),
the device-path round trip and the host-path round trip both succeed
and reproduce the object up to value equality of its content. -/
theorem claim_C1 (x : Obj) (p : Nat) (hwf : x.data.WellFormed) :
    (∃ hd fs y, (cuda_serialize x).result = Except.ok (hd, fs) ∧
        (cuda_deserialize hd fs).result = Except.ok y ∧ y.contentEq x) ∧
    (∃ hd fs y, (dask_serialize x).result = Except.ok (hd, fs) ∧
        (dask_deserialize hd fs p).result = Except.ok y ∧ y.contentEq x) := by
  constructor
  · exact ⟨x.header, [Frame.host x.metaBytes, Frame.gpu x.data], x,
      rfl, rfl, rfl, rfl, rfl⟩
  · refine ⟨x.header, [Frame.host x.metaBytes, Frame.host x.data.bytes],
      ⟨x.metaBytes, DeviceBuffer.to_device x.data.bytes p, x.header⟩, ?_, rfl, rfl, rfl, rfl⟩
    rw [dask_serialize_of_wellFormed x hwf]

/-- Claim C1 witness: the host-path round trip on a concrete well-formed
object. -/
theorem claim_C1_witness :
    ∃ hd fs y, (dask_serialize sampleObj).result = Except.ok (hd, fs) ∧
      (dask_deserialize hd fs 11).result = Except.ok y ∧ y.contentEq sampleObj :=
  (claim_C1 sampleObj 11 (by decide)).2

/-- Claim C2: serialize on either path returns exactly 2 buffers, and
deserialize on either path, given a frame list whose length is not 2,
raises a precondition violation before the object layer's own
deserialize is consulted (the error holds for every deserialize
function `d`). -/
theorem claim_C2 (x : Obj) (d : Nat → Frame × Frame → Option Obj)
    (header freshPtr : Nat) (frames : List Frame)
    (hlen : frames.length ≠ 2) :
    (∃ hd fs, (cuda_serialize x).result = Except.ok (hd, fs) ∧ fs.length = 2) ∧
    (∀ hd fs, (dask_serialize x).result = Except.ok (hd, fs) → fs.length = 2) ∧
    (∃ m, (cuda_deserialize_with d header frames).result =
        Except.error (SerErr.preconditionViolation m)) ∧
    (∃ m, (dask_deserialize_with d header frames freshPtr).result =
        Except.error (SerErr.preconditionViolation m)) := by
  refine ⟨⟨x.header, [Frame.host x.metaBytes, Frame.gpu x.data], rfl, rfl⟩, ?_, ?_, ?_⟩
  · intro hd fs h
    simp only [dask_serialize, Obj.serialize] at h
    split at h
    · split at h
      · split at h
        · simp only [log_errors] at h
          cases h
          rfl
        · exact Except.noConfusion h
      · exact Except.noConfusion h
    · exact Except.noConfusion h
  · rcases frames with _ | ⟨a, _ | ⟨b, _ | ⟨c, r⟩⟩⟩
    · exact ⟨_, rfl⟩
    · exact ⟨_, rfl⟩
    · exact absurd rfl hlen
    · exact ⟨_, rfl⟩
  · rcases frames with _ | ⟨a, _ | ⟨b, _ | ⟨c, r⟩⟩⟩
    · exact ⟨_, rfl⟩
    · exact ⟨_, rfl⟩
    · exact absurd rfl hlen
    · cases b <;> exact ⟨_, rfl⟩

/-- Claim C2 witness: the invariants at a concrete object and the empty
frame list. -/
theorem claim_C2_witness :
    (∃ hd fs, (cuda_serialize sampleObj).result = Except.ok (hd, fs) ∧ fs.length = 2) ∧
    (∀ hd fs, (dask_serialize sampleObj).result = Except.ok (hd, fs) → fs.length = 2) ∧
    (∃ m, (cuda_deserialize_with Obj.deserialize 0 []).result =
        Except.error (SerErr.preconditionViolation m)) ∧
    (∃ m, (dask_deserialize_with Obj.deserialize 0 [] 0).result =
        Except.error (SerErr.preconditionViolation m)) :=
  claim_C2 sampleObj Obj.deserialize 0 0 [] (by decide)

/-- Claim C3: whenever the data buffer's descriptor has shape of rank
other than 1, or strides neither unset nor exactly `(1,)`, or a typestr
other than raw unsigned bytes, host-path serialize propagates a
precondition violation and performs no device-to-host copy. -/
theorem claim_C3 (x : Obj)
    (hbad : x.data.cai.shape.length ≠ 1 ∨
      ¬(x.data.cai.strides = none ∨ x.data.cai.strides = some [1]) ∨
      x.data.cai.typestr ≠ "|u1") :
    ∃ m, (dask_serialize x).result = Except.error (SerErr.preconditionViolation m) ∧
      (dask_serialize x).copies = [] := by
  simp only [dask_serialize, Obj.serialize]
  rcases hbad with hb | hb | hb
  · rw [if_neg hb]
    exact ⟨_, rfl, rfl⟩
  · by_cases h1 : x.data.cai.shape.length = 1
    · rw [if_pos h1, if_neg hb]
      exact ⟨_, rfl, rfl⟩
    · rw [if_neg h1]
      exact ⟨_, rfl, rfl⟩
  · by_cases h1 : x.data.cai.shape.length = 1
    · by_cases h2 : x.data.cai.strides = none ∨ x.data.cai.strides = some [1]
      · rw [if_pos h1, if_pos h2, if_neg hb]
        exact ⟨_, rfl, rfl⟩
      · rw [if_pos h1, if_neg h2]
        exact ⟨_, rfl, rfl⟩
    · rw [if_neg h1]
      exact ⟨_, rfl, rfl⟩

/-- Claim C3 witness: an object with stride `(2,)` — the spec's own
scenario — makes host-path serialize fail with no copy. -/
theorem claim_C3_witness :
    ∃ m, (dask_serialize ⟨[], ⟨⟨0, [2], some [2], "|u1"⟩, [1, 2]⟩, 0⟩).result =
        Except.error (SerErr.preconditionViolation m) ∧
      (dask_serialize ⟨[], ⟨⟨0, [2], some [2], "|u1"⟩, [1, 2]⟩, 0⟩).copies = [] :=
  claim_C3 ⟨[], ⟨⟨0, [2], some [2], "|u1"⟩, [1, 2]⟩, 0⟩ (by decide)

/-- Claim C8: every hook on both paths logs faithfully — any error its
body raises is logged and re-raised unchanged as the hook's outcome,
and a hook that returns a value logged no error (errors are never
swallowed). -/
theorem claim_C8 (x : Obj) (d : Nat → Frame × Frame → Option Obj)
    (header freshPtr : Nat) (frames : List Frame) :
    LogsFaithfully (cuda_serialize x) ∧
    LogsFaithfully (cuda_deserialize_with d header frames) ∧
    LogsFaithfully (dask_serialize x) ∧
    LogsFaithfully (dask_deserialize_with d header frames freshPtr) := by
  refine ⟨log_errors_faithful _, ?_, ?_, ?_⟩
  · unfold cuda_deserialize_with
    split <;> exact log_errors_faithful _
  · simp only [dask_serialize, Obj.serialize]
    split
    · split
      · split
        · exact log_errors_faithful _
        · exact log_errors_faithful _
      · exact log_errors_faithful _
    · exact log_errors_faithful _
  · unfold dask_deserialize_with
    split <;> exact log_errors_faithful _

/-- Claim C8 witness: a concrete propagated error (wrong frame count on
the device-path deserialize hook) appears in that call's log. -/
theorem claim_C8_witness :
    SerErr.preconditionViolation "len(frames) == 2" ∈
      (cuda_deserialize_with Obj.deserialize 0 []).logged :=
  (claim_C8 sampleObj Obj.deserialize 0 0 []).2.1.1 _ rfl

/-- Claim C9: for a data buffer satisfying the host path's contiguity
precondition (descriptor rank-1 over the buffer's full byte length,
unset or unit strides, raw-byte typestr), host-path serialize copies
exactly the buffer's full byte content device-to-host, and the
subsequent host-path deserialize copies exactly those bytes back
host-to-device, reproducing the original device bytes with no loss and
no reordering. -/
theorem claim_C9 (x : Obj) (p : Nat)
    (hsh : x.data.cai.shape = [x.data.bytes.length])
    (hst : x.data.cai.strides = none ∨ x.data.cai.strides = some [1])
    (hty : x.data.cai.typestr = "|u1") :
    ∃ hd fs y, (dask_serialize x).result = Except.ok (hd, fs) ∧
      (dask_serialize x).copies = [CopyEvent.deviceToHost x.data.bytes] ∧
      (dask_deserialize hd fs p).result = Except.ok y ∧
      (dask_deserialize hd fs p).copies = [CopyEvent.hostToDevice x.data.bytes] ∧
      y.data.bytes = x.data.bytes := by
  refine ⟨x.header, [Frame.host x.metaBytes, Frame.host x.data.bytes],
    ⟨x.metaBytes, DeviceBuffer.to_device x.data.bytes p, x.header⟩, ?_, ?_, rfl, rfl, rfl⟩
  · rw [dask_serialize_of_wellFormed x ⟨hsh, hst, hty⟩]
  · rw [dask_serialize_of_wellFormed x ⟨hsh, hst, hty⟩]

/-- Claim C9 witness: byte-exactness of the host-path round trip on a
concrete buffer. -/
theorem claim_C9_witness :
    ∃ hd fs y, (dask_serialize sampleObj).result = Except.ok (hd, fs) ∧
      (dask_serialize sampleObj).copies =
        [CopyEvent.deviceToHost sampleObj.data.bytes] ∧
      (dask_deserialize hd fs 3).result = Except.ok y ∧
      (dask_deserialize hd fs 3).copies =
        [CopyEvent.hostToDevice sampleObj.data.bytes] ∧
      y.data.bytes = sampleObj.data.bytes :=
  claim_C9 sampleObj 3 (by decide) (by decide) (by decide)

end DaskSerialize
